import Mathlib

/-!
MacroMate calculation core: a shallow embedding.

This file embeds the deterministic calculation pipeline of `src/app.py`
(BMR estimation → TDEE scaling → calorie target → macro split → percentage
breakdown) into Lean and proves the specified properties about it.

Conventions of the embedding:
* Python floats are modelled as exact rationals (`ℚ`); Python ints as `ℤ`.
* Python's built-in one-argument `round` (round to nearest, ties to even)
  is modelled by `pyRound`.
* The Python dict `ACTIVITY_MULTIPLIERS` is modelled as a lookup returning
  `Option ℚ`; subscripting with a missing key raises `KeyError` in Python,
  which is modelled as the error value of the `estimate_tdee` step.
-/

namespace MacroMate

/-- User inputs (`UserProfile` dataclass, src/app.py lines 34-42). -/
structure UserProfile where
  sex : String
  age : ℤ
  height_cm : ℚ
  weight_kg : ℚ
  activity : String
  goal : String
  pace : String

/-- The activity multiplier dict (src/app.py lines 44-50), as a lookup that
returns `none` exactly on the keys the dict does not hold. -/
def ACTIVITY_MULTIPLIERS (s : String) : Option ℚ :=
  if s = "Sedentary (little/no exercise)" then some 1.2
  else if s = "Light (1–3 days/wk)" then some 1.375
  else if s = "Moderate (3–5 days/wk)" then some 1.55
  else if s = "Very active (6–7 days/wk)" then some 1.725
  else if s = "Athlete (2x/day training)" then some 1.9
  else none

/-- The five activity tier labels, in table order (src/app.py lines 44-50). -/
def ACTIVITY_LABELS : List String :=
  ["Sedentary (little/no exercise)", "Light (1–3 days/wk)",
   "Moderate (3–5 days/wk)", "Very active (6–7 days/wk)",
   "Athlete (2x/day training)"]

/-- BMR estimate (`mifflin_st_jeor`, src/app.py lines 52-57). -/
def mifflin_st_jeor (sex : String) (weight_kg height_cm : ℚ) (age : ℤ) : ℚ :=
  if sex = "Male" then 10 * weight_kg + 6.25 * height_cm - 5 * age + 5
  else 10 * weight_kg + 6.25 * height_cm - 5 * age - 161

/-- Python's built-in one-argument `round` on an exact rational: round to the
nearest integer, ties going to the even integer (banker's rounding). -/
def pyRound (q : ℚ) : ℤ :=
  if q - ⌊q⌋ < 1/2 then ⌊q⌋
  else if 1/2 < q - ⌊q⌋ then ⌊q⌋ + 1
  else if Even ⌊q⌋ then ⌊q⌋ else ⌊q⌋ + 1

/-- `round_to` (src/app.py lines 59-60): `int(base * round(n / base))`. -/
def round_to (n : ℚ) (base : ℤ := 5) : ℤ :=
  base * pyRound (n / (base : ℚ))

/-- `compute_calorie_target` (src/app.py lines 62-73). -/
def compute_calorie_target (tdee : ℚ) (goal pace : String) : ℤ :=
  let delta : ℚ :=
    if goal = "Maintain" then 0
    else if goal = "Cut" then
      (if pace = "Slow" then -300 else if pace = "Standard" then -500 else -700)
    else
      (if pace = "Slow" then 200 else if pace = "Standard" then 300 else 450)
  round_to (max 1200 (tdee + delta)) 10

/-- The record returned by `compute_macros` (keys of the Python dict built at
src/app.py lines 95-100). -/
structure MacroPlan where
  protein_g : ℤ
  fat_g : ℤ
  carbs_g : ℤ
  calories : ℤ

/-- `compute_macros` (src/app.py lines 75-100). -/
def compute_macros (weight_kg : ℚ) (calories : ℤ) (goal : String) : MacroPlan :=
  let protein_g : ℚ := if goal = "Bulk" then 1.6 * weight_kg else 1.8 * weight_kg
  let fat_g : ℚ := if goal = "Bulk" then 0.9 * weight_kg else 0.8 * weight_kg
  let protein_cal := protein_g * 4
  let fat_cal := fat_g * 9
  let remaining := max 0 ((calories : ℚ) - (protein_cal + fat_cal))
  let carbs_g := remaining / 4
  { protein_g := pyRound protein_g
    fat_g := pyRound fat_g
    carbs_g := pyRound carbs_g
    calories := calories }

/-- `macro_percentages` (src/app.py lines 102-110); the returned triple is
(protein %, carbs %, fat %). -/
def macro_percentages (macros : MacroPlan) : ℚ × ℚ × ℚ :=
  if macros.calories ≤ 0 then (0, 0, 0)
  else ((macros.protein_g * 4 : ℚ) / (macros.calories : ℚ) * 100,
        (macros.carbs_g * 4 : ℚ) / (macros.calories : ℚ) * 100,
        (macros.fat_g * 9 : ℚ) / (macros.calories : ℚ) * 100)

/-- Errors of the calculation core named by the spec.  The only one the code
can actually raise is the `KeyError` of the dict subscript at line 145. -/
inductive CalcError where
  | invalidActivityLevel
deriving DecidableEq

/-- The TDEE estimation step (src/app.py lines 144-145): `bmr = mifflin_st_jeor(...)`
then `tdee = bmr * ACTIVITY_MULTIPLIERS[profile.activity]`.  A key missing from
the dict raises `KeyError`, modelled as the spec's `InvalidActivityLevel`. -/
def estimate_tdee (p : UserProfile) : Except CalcError ℚ :=
  match ACTIVITY_MULTIPLIERS p.activity with
  | none => .error .invalidActivityLevel
  | some m => .ok (mifflin_st_jeor p.sex p.weight_kg p.height_cm p.age * m)

/-- Lines 144-146 of src/app.py: profile to calorie target. -/
def app_calories (p : UserProfile) : Except CalcError ℤ :=
  (estimate_tdee p).map fun t => compute_calorie_target t p.goal p.pace

/-- Lines 144-147 of src/app.py: the full pipeline from profile to macro plan. -/
def app_pipeline (p : UserProfile) : Except CalcError MacroPlan :=
  (estimate_tdee p).map fun t =>
    compute_macros p.weight_kg (compute_calorie_target t p.goal p.pace) p.goal

/-- A valid profile: the input ranges enforced by the UI widgets
(src/app.py lines 116-127) and §3 of the spec. -/
def ValidProfile (p : UserProfile) : Prop :=
  (p.sex = "Male" ∨ p.sex = "Female") ∧
  13 ≤ p.age ∧ p.age ≤ 90 ∧
  120 ≤ p.height_cm ∧ p.height_cm ≤ 230 ∧
  35 ≤ p.weight_kg ∧ p.weight_kg ≤ 200 ∧
  p.activity ∈ ACTIVITY_LABELS ∧
  p.goal ∈ (["Cut", "Maintain", "Bulk"] : List String) ∧
  p.pace ∈ (["Slow", "Standard", "Aggressive"] : List String)

instance (p : UserProfile) : Decidable (ValidProfile p) := by
  unfold ValidProfile; infer_instance

/-- The goal/pace delta table exactly as the spec (§4.2) writes it, defined on
the nine goal/pace combinations of the two enums. -/
def specDelta (goal pace : String) : Option ℚ :=
  if goal = "Cut" then
    (if pace = "Slow" then some (-300)
     else if pace = "Standard" then some (-500)
     else if pace = "Aggressive" then some (-700)
     else none)
  else if goal = "Maintain" then
    (if pace = "Slow" ∨ pace = "Standard" ∨ pace = "Aggressive" then some 0 else none)
  else if goal = "Bulk" then
    (if pace = "Slow" then some 200
     else if pace = "Standard" then some 300
     else if pace = "Aggressive" then some 450
     else none)
  else none

/-- Rounding to the nearest multiple of 10 as the spec describes it (round the
quotient by 10 to the nearest integer, then multiply back by 10). -/
def spec_round10 (x : ℚ) : ℤ :=
  10 * pyRound (x / 10)

/-- Protein calories plus fat calories as computed inside `compute_macros`
(src/app.py lines 82-90), before any rounding. -/
def protein_fat_cal (weight_kg : ℚ) (goal : String) : ℚ :=
  (if goal = "Bulk" then 1.6 * weight_kg else 1.8 * weight_kg) * 4 +
  (if goal = "Bulk" then 0.9 * weight_kg else 0.8 * weight_kg) * 9

/-! ## Basic facts about `pyRound` -/

theorem pyRound_le (q : ℚ) : (pyRound q : ℚ) ≤ q + 1/2 := by
  have h0 := Int.floor_le q
  have h1 := Int.lt_floor_add_one q
  unfold pyRound
  split_ifs <;> push_cast <;> linarith

theorem le_pyRound (q : ℚ) : q - 1/2 ≤ (pyRound q : ℚ) := by
  have h0 := Int.floor_le q
  have h1 := Int.lt_floor_add_one q
  unfold pyRound
  split_ifs <;> push_cast <;> linarith

theorem pyRound_sub_abs (q : ℚ) : |(pyRound q : ℚ) - q| ≤ 1/2 := by
  rw [abs_le]
  constructor
  · have := le_pyRound q; linarith
  · have := pyRound_le q; linarith

theorem floor_le_pyRound (q : ℚ) : ⌊q⌋ ≤ pyRound q := by
  unfold pyRound
  split_ifs <;> omega

theorem le_pyRound_of_le (n : ℤ) (q : ℚ) (h : (n : ℚ) ≤ q) : n ≤ pyRound q :=
  le_trans (Int.le_floor.mpr h) (floor_le_pyRound q)

theorem pyRound_lt_add (q d : ℚ) (hd : 1 < d) : pyRound q < pyRound (q + d) := by
  have h1 := pyRound_le q
  have h2 := le_pyRound (q + d)
  have : (pyRound q : ℚ) < (pyRound (q + d) : ℚ) := by linarith
  exact_mod_cast this

theorem pyRound_int_add_half (m : ℤ) :
    pyRound ((m : ℚ) + 1/2) = if Even m then m else m + 1 := by
  have hfl : ⌊(m : ℚ) + 1/2⌋ = m := by
    rw [add_comm, Int.floor_add_int]
    norm_num
  unfold pyRound
  rw [hfl]
  have hr : (m : ℚ) + 1/2 - (m : ℚ) = 1/2 := by ring
  rw [hr]
  norm_num

/-! ## Facts about `round_to` and `spec_round10` -/

theorem round_to_10_ge_1200 (x : ℚ) (hx : 1200 ≤ x) : 1200 ≤ round_to x 10 := by
  unfold round_to
  have h : ((120 : ℤ) : ℚ) ≤ x / ((10 : ℤ) : ℚ) := by push_cast; linarith
  have := le_pyRound_of_le 120 (x / ((10 : ℤ) : ℚ)) h
  linarith

theorem round_to_10_mod (x : ℚ) : round_to x 10 % 10 = 0 := by
  unfold round_to
  exact Int.mul_emod_right 10 _

theorem round_to_10_eq (x : ℚ) : round_to x 10 = 10 * pyRound (x / 10) := by
  unfold round_to
  norm_num

theorem spec_round10_close (x : ℚ) : |(spec_round10 x : ℚ) - x| ≤ 5 := by
  have h := pyRound_sub_abs (x / 10)
  rw [abs_le] at h ⊢
  unfold spec_round10
  have hx : x = 10 * (x / 10) := by ring
  push_cast
  constructor <;> nlinarith [h.1, h.2]

/-! ## Claim theorems -/

/-- C1: for every real `tdee` and every goal/pace combination of the spec's
delta table, `compute_calorie_target` returns `round10 (max 1200 (tdee + delta))`
with the delta of the table; for goal Maintain the result is
`round10 (max 1200 tdee)` for every pace (pace ignored); and the result is the
nearest multiple of 10 (within 5 of the floored raw target). -/
theorem calorie_target_matches_spec_table (tdee : ℚ) (goal pace : String) (d : ℚ)
    (hd : specDelta goal pace = some d) :
    compute_calorie_target tdee goal pace = spec_round10 (max 1200 (tdee + d)) ∧
    compute_calorie_target tdee "Maintain" pace = spec_round10 (max 1200 tdee) ∧
    |(compute_calorie_target tdee goal pace : ℚ) - max 1200 (tdee + d)| ≤ 5 := by
  have hmaintain : compute_calorie_target tdee "Maintain" pace
      = spec_round10 (max 1200 tdee) := by
    simp [compute_calorie_target, round_to, spec_round10]
  have hmain : compute_calorie_target tdee goal pace
      = spec_round10 (max 1200 (tdee + d)) := by
    unfold specDelta at hd
    split_ifs at hd
    all_goals obtain rfl := Option.some.inj hd
    all_goals try subst goal
    all_goals try subst pace
    all_goals simp_all [compute_calorie_target, round_to, spec_round10]
  refine ⟨hmain, hmaintain, ?_⟩
  rw [hmain]
  exact spec_round10_close _

/-- Witness for C1: the spec's worked example, TDEE 2202 with goal Maintain
rounds to 2200. -/
theorem calorie_target_matches_spec_table_witness :
    specDelta "Maintain" "Slow" = some 0 ∧
    compute_calorie_target 2202 "Maintain" "Slow" = 2200 := by
  have h := (calorie_target_matches_spec_table 2202 "Maintain" "Slow" 0 (by rfl)).1
  refine ⟨by rfl, ?_⟩
  rw [h]
  norm_num [spec_round10, pyRound, max_def]

/-- C4: for every valid profile the pipeline's calorie target is at least 1200
and a multiple of 10. -/
theorem app_calories_floor_and_mod (p : UserProfile) (c : ℤ)
    (_hv : ValidProfile p) (hc : app_calories p = .ok c) :
    1200 ≤ c ∧ c % 10 = 0 := by
  unfold app_calories at hc
  cases he : estimate_tdee p with
  | error e => rw [he] at hc; exact Except.noConfusion hc
  | ok t =>
      rw [he] at hc
      simp only [Except.map] at hc
      obtain rfl := Except.ok.inj hc
      constructor
      · simp only [compute_calorie_target]
        exact round_to_10_ge_1200 _ (le_max_left _ _)
      · simp only [compute_calorie_target]
        exact round_to_10_mod _

/-- A smallest/oldest/lightest sedentary female profile on an aggressive cut:
the lowest-TDEE corner of the valid input space. -/
def lowProfile : UserProfile :=
  { sex := "Female", age := 90, height_cm := 120, weight_kg := 35,
    activity := "Sedentary (little/no exercise)", goal := "Cut", pace := "Aggressive" }

/-- Witness for C4: the low-TDEE profile is valid, its pipeline target is
exactly 1200 (raw arithmetic would give 586.8 - 700 < 1200), and the claim's
conclusion holds there. -/
theorem app_calories_floor_and_mod_witness :
    ValidProfile lowProfile ∧ app_calories lowProfile = .ok 1200 ∧
    (1200 ≤ (1200 : ℤ) ∧ (1200 : ℤ) % 10 = 0) := by
  have hv : ValidProfile lowProfile := by decide
  have hc : app_calories lowProfile = .ok 1200 := by
    norm_num +decide [app_calories, estimate_tdee, ACTIVITY_MULTIPLIERS, mifflin_st_jeor,
      lowProfile, compute_calorie_target, round_to, pyRound, Int.fract, max_def, Except.map]
  exact ⟨hv, hc, app_calories_floor_and_mod lowProfile 1200 hv hc⟩

/-- C6 counterexample: at TDEE 1000 the Cut targets for Slow and Standard pace
are both 1200 (the floor is active), so the target does not strictly decrease
along Slow → Standard; likewise at TDEE 900 the Bulk targets for Slow and
Standard are both 1200, so the Bulk target does not strictly increase. -/
theorem pace_monotonicity_ctrex :
    compute_calorie_target 1000 "Cut" "Slow" = 1200 ∧
    compute_calorie_target 1000 "Cut" "Standard" = 1200 ∧
    compute_calorie_target 900 "Bulk" "Slow" = 1200 ∧
    compute_calorie_target 900 "Bulk" "Standard" = 1200 := by
  norm_num +decide [compute_calorie_target, round_to, pyRound, Int.fract, max_def]

/-- C6 (amended): for a fixed TDEE high enough that the 1200 floor is inactive
for every pace (TDEE ≥ 1900 for Cut, TDEE ≥ 1000 for Bulk), the Cut target
strictly decreases along Slow → Standard → Aggressive and the Bulk target
strictly increases. -/
theorem pace_monotonicity (t : ℚ) :
    (1900 ≤ t →
      compute_calorie_target t "Cut" "Standard" < compute_calorie_target t "Cut" "Slow" ∧
      compute_calorie_target t "Cut" "Aggressive" < compute_calorie_target t "Cut" "Standard") ∧
    (1000 ≤ t →
      compute_calorie_target t "Bulk" "Slow" < compute_calorie_target t "Bulk" "Standard" ∧
      compute_calorie_target t "Bulk" "Standard" < compute_calorie_target t "Bulk" "Aggressive") := by
  have h10 : (0 : ℤ) < 10 := by norm_num
  have hcs : compute_calorie_target t "Cut" "Slow" = round_to (max 1200 (t + -300)) 10 := by
    simp +decide [compute_calorie_target]
  have hcm : compute_calorie_target t "Cut" "Standard" = round_to (max 1200 (t + -500)) 10 := by
    simp +decide [compute_calorie_target]
  have hca : compute_calorie_target t "Cut" "Aggressive" = round_to (max 1200 (t + -700)) 10 := by
    simp +decide [compute_calorie_target]
  have hbs : compute_calorie_target t "Bulk" "Slow" = round_to (max 1200 (t + 200)) 10 := by
    simp +decide [compute_calorie_target]
  have hbm : compute_calorie_target t "Bulk" "Standard" = round_to (max 1200 (t + 300)) 10 := by
    simp +decide [compute_calorie_target]
  have hba : compute_calorie_target t "Bulk" "Aggressive" = round_to (max 1200 (t + 450)) 10 := by
    simp +decide [compute_calorie_target]
  constructor
  · intro ht
    have e1 : max (1200 : ℚ) (t + -300) = t + -300 := max_eq_right (by linarith)
    have e2 : max (1200 : ℚ) (t + -500) = t + -500 := max_eq_right (by linarith)
    have e3 : max (1200 : ℚ) (t + -700) = t + -700 := max_eq_right (by linarith)
    rw [hcs, hcm, hca, e1, e2, e3, round_to_10_eq, round_to_10_eq, round_to_10_eq]
    constructor
    · rw [mul_lt_mul_left h10, show (t + -300) / 10 = (t + -500) / 10 + 20 by ring]
      exact pyRound_lt_add _ 20 (by norm_num)
    · rw [mul_lt_mul_left h10, show (t + -500) / 10 = (t + -700) / 10 + 20 by ring]
      exact pyRound_lt_add _ 20 (by norm_num)
  · intro ht
    have e1 : max (1200 : ℚ) (t + 200) = t + 200 := max_eq_right (by linarith)
    have e2 : max (1200 : ℚ) (t + 300) = t + 300 := max_eq_right (by linarith)
    have e3 : max (1200 : ℚ) (t + 450) = t + 450 := max_eq_right (by linarith)
    rw [hbs, hbm, hba, e1, e2, e3, round_to_10_eq, round_to_10_eq, round_to_10_eq]
    constructor
    · rw [mul_lt_mul_left h10, show (t + 300) / 10 = (t + 200) / 10 + 10 by ring]
      exact pyRound_lt_add _ 10 (by norm_num)
    · rw [mul_lt_mul_left h10, show (t + 450) / 10 = (t + 300) / 10 + 15 by ring]
      exact pyRound_lt_add _ 15 (by norm_num)

/-- Witness for C6: strictness at TDEE 2202 on both chains. -/
theorem pace_monotonicity_witness :
    compute_calorie_target 2202 "Cut" "Standard" < compute_calorie_target 2202 "Cut" "Slow" ∧
    compute_calorie_target 2202 "Bulk" "Slow" < compute_calorie_target 2202 "Bulk" "Standard" :=
  ⟨((pace_monotonicity 2202).1 (by norm_num)).1,
   ((pace_monotonicity 2202).2 (by norm_num)).1⟩

/-- C10: when the raw target divided by 10 is exactly halfway between two
integers, `compute_calorie_target` (via Python's built-in `round`) resolves the
tie to the even integer. -/
theorem round_ties_to_even (t : ℚ) (m : ℤ) (h1200 : 1200 ≤ t)
    (hh : t / 10 = (m : ℚ) + 1/2) :
    round_to t 10 = (if Even m then 10 * m else 10 * (m + 1)) ∧
    compute_calorie_target t "Maintain" "Standard"
      = (if Even m then 10 * m else 10 * (m + 1)) := by
  have h1 : round_to t 10 = 10 * pyRound ((m : ℚ) + 1/2) := by
    unfold round_to
    norm_num
    rw [hh]
  rw [pyRound_int_add_half] at h1
  have h2 : compute_calorie_target t "Maintain" "Standard" = round_to t 10 := by
    simp only [compute_calorie_target]
    norm_num
    rw [max_eq_right h1200]
  constructor
  · rw [h1]; split_ifs <;> ring
  · rw [h2, h1]; split_ifs <;> ring

/-- Witness for C10: raw target 2205 rounds down to 2200 (quotient 220.5,
ties to the even 220) while 2215 rounds up to 2220 (quotient 221.5, ties to
the even 222). -/
theorem round_ties_to_even_witness :
    compute_calorie_target 2205 "Maintain" "Standard" = 2200 ∧
    compute_calorie_target 2215 "Maintain" "Standard" = 2220 := by
  have h1 := (round_ties_to_even 2205 220 (by norm_num) (by norm_num)).2
  have h2 := (round_ties_to_even 2215 221 (by norm_num) (by norm_num)).2
  rw [if_pos (by decide : Even (220 : ℤ))] at h1
  rw [if_neg (by decide : ¬ Even (221 : ℤ))] at h2
  constructor
  · rw [h1]; norm_num
  · rw [h2]; norm_num

/-- C2: `compute_macros` uses protein 1.6 g/kg and fat 0.9 g/kg for Bulk and
protein 1.8 g/kg and fat 0.8 g/kg otherwise, computes
`carbsG = max 0 (calories - proteinCal - fatCal) / 4`, rounds each gram value
independently, carbs are never negative, and when protein-plus-fat calories
meet or exceed the target the carbs clamp to exactly 0. -/
theorem compute_macros_spec (w : ℚ) (cal : ℤ) (goal : String) :
    (compute_macros w cal goal).protein_g
        = pyRound (if goal = "Bulk" then 1.6 * w else 1.8 * w) ∧
    (compute_macros w cal goal).fat_g
        = pyRound (if goal = "Bulk" then 0.9 * w else 0.8 * w) ∧
    (compute_macros w cal goal).carbs_g
        = pyRound (max 0 ((cal : ℚ) - protein_fat_cal w goal) / 4) ∧
    0 ≤ (compute_macros w cal goal).carbs_g ∧
    ((cal : ℚ) ≤ protein_fat_cal w goal → (compute_macros w cal goal).carbs_g = 0) := by
  have hcarb : (compute_macros w cal goal).carbs_g
      = pyRound (max 0 ((cal : ℚ) - protein_fat_cal w goal) / 4) := rfl
  refine ⟨rfl, rfl, hcarb, ?_, ?_⟩
  · rw [hcarb]
    exact le_pyRound_of_le 0 _
      (by positivity)
  · intro h
    have hm : max 0 ((cal : ℚ) - protein_fat_cal w goal) = 0 :=
      max_eq_left (by linarith)
    rw [hcarb, hm]
    norm_num [pyRound]

/-- Witness for C2: at weight 200 kg and target 1870 kcal on a Cut,
protein-plus-fat calories (2880) exceed the target and carbs clamp to 0. -/
theorem compute_macros_spec_witness :
    ((1870 : ℤ) : ℚ) ≤ protein_fat_cal 200 "Cut" ∧
    (compute_macros 200 1870 "Cut").carbs_g = 0 := by
  have h : ((1870 : ℤ) : ℚ) ≤ protein_fat_cal 200 "Cut" := by
    norm_num +decide [protein_fat_cal]
  exact ⟨h, (compute_macros_spec 200 1870 "Cut").2.2.2.2 h⟩

/-- C3: the BMR is the Mifflin-St Jeor formula (`+5` for Male, `-161`
otherwise), the activity table binds the five labels to 1.2, 1.375, 1.55,
1.725, 1.9, and TDEE is BMR times the looked-up multiplier with no clamping. -/
theorem bmr_and_tdee_formula :
    (∀ w h : ℚ, ∀ a : ℤ, mifflin_st_jeor "Male" w h a = 10 * w + 6.25 * h - 5 * a + 5) ∧
    (∀ s : String, ∀ w h : ℚ, ∀ a : ℤ, s ≠ "Male" →
        mifflin_st_jeor s w h a = 10 * w + 6.25 * h - 5 * a - 161) ∧
    ACTIVITY_MULTIPLIERS "Sedentary (little/no exercise)" = some 1.2 ∧
    ACTIVITY_MULTIPLIERS "Light (1–3 days/wk)" = some 1.375 ∧
    ACTIVITY_MULTIPLIERS "Moderate (3–5 days/wk)" = some 1.55 ∧
    ACTIVITY_MULTIPLIERS "Very active (6–7 days/wk)" = some 1.725 ∧
    ACTIVITY_MULTIPLIERS "Athlete (2x/day training)" = some 1.9 ∧
    (∀ p : UserProfile, ∀ m : ℚ, ACTIVITY_MULTIPLIERS p.activity = some m →
        estimate_tdee p = .ok (mifflin_st_jeor p.sex p.weight_kg p.height_cm p.age * m)) := by
  refine ⟨?_, ?_, by rfl, by rfl, by rfl, by rfl, by rfl, ?_⟩
  · intro w h a
    simp [mifflin_st_jeor]
  · intro s w h a hs
    simp [mifflin_st_jeor, hs]
  · intro p m hm
    unfold estimate_tdee
    rw [hm]

/-- Witness for C3: the spec's worked example, Male/80 kg/180 cm/19 y gives
BMR 1835. -/
theorem bmr_and_tdee_formula_witness :
    mifflin_st_jeor "Male" 80 180 19 = 1835 := by
  have h := bmr_and_tdee_formula.1 80 180 19
  rw [h]
  norm_num

/-- A valid profile heavy enough that protein-plus-fat calories exceed the
pipeline's calorie target: Female, 90 y, 120 cm, 200 kg, sedentary, on an
aggressive cut. -/
def heavyProfile : UserProfile :=
  { sex := "Female", age := 90, height_cm := 120, weight_kg := 200,
    activity := "Sedentary (little/no exercise)", goal := "Cut", pace := "Aggressive" }

/-- C5 counterexample: the valid profile (Female, 90 y, 120 cm, 200 kg,
sedentary, Cut, Aggressive) runs through the full pipeline to a 1870 kcal
target, but protein-plus-fat calories alone are 2880, the carb clamp hits 0,
and the reconstruction `proteinG*4 + fatG*9 + carbsG*4` misses the calorie
target by 1010 kcal - far beyond the claimed ~2-gram rounding error, and the
identity is not even exact before rounding. -/
theorem macros_reconstruction_ctrex :
    ValidProfile heavyProfile ∧
    app_pipeline heavyProfile = .ok (compute_macros 200 1870 "Cut") ∧
    (compute_macros 200 1870 "Cut").protein_g * 4 +
      (compute_macros 200 1870 "Cut").fat_g * 9 +
      (compute_macros 200 1870 "Cut").carbs_g * 4 -
      (compute_macros 200 1870 "Cut").calories = 1010 := by
  refine ⟨by decide, ?_, ?_⟩
  · norm_num +decide [app_pipeline, estimate_tdee, ACTIVITY_MULTIPLIERS, mifflin_st_jeor,
      heavyProfile, compute_calorie_target, round_to, pyRound, Int.fract, max_def, Except.map]
  · norm_num +decide [compute_macros, pyRound, Int.fract, max_def]

/-- C5 (amended): whenever protein-plus-fat calories do not exceed the calorie
target (so the carb clamp is inactive), the reconstruction identity is exact
before rounding, and after independent per-field rounding the deviation from
the calorie target is at most 8 kcal (2 grams of carbohydrate equivalent).
When the clamp is active the identity fails, as the counterexample shows. -/
theorem macros_reconstruction (w : ℚ) (cal : ℤ) (goal : String)
    (h : protein_fat_cal w goal ≤ (cal : ℚ)) :
    protein_fat_cal w goal + 4 * (((cal : ℚ) - protein_fat_cal w goal) / 4) = (cal : ℚ) ∧
    |(compute_macros w cal goal).protein_g * 4 + (compute_macros w cal goal).fat_g * 9 +
        (compute_macros w cal goal).carbs_g * 4 - cal| ≤ 8 := by
  constructor
  · ring
  · have hP : (compute_macros w cal goal).protein_g
        = pyRound (if goal = "Bulk" then (1.6 : ℚ) * w else 1.8 * w) := rfl
    have hF : (compute_macros w cal goal).fat_g
        = pyRound (if goal = "Bulk" then (0.9 : ℚ) * w else 0.8 * w) := rfl
    have hmax : max 0 ((cal : ℚ) - protein_fat_cal w goal)
        = (cal : ℚ) - protein_fat_cal w goal := max_eq_right (by linarith)
    have hC : (compute_macros w cal goal).carbs_g
        = pyRound (((cal : ℚ) - protein_fat_cal w goal) / 4) := by
      have h0 : (compute_macros w cal goal).carbs_g
          = pyRound (max 0 ((cal : ℚ) - protein_fat_cal w goal) / 4) := rfl
      rw [h0, hmax]
    have hpfc : protein_fat_cal w goal
        = (if goal = "Bulk" then (1.6 : ℚ) * w else 1.8 * w) * 4
          + (if goal = "Bulk" then (0.9 : ℚ) * w else 0.8 * w) * 9 := rfl
    have hb1 := pyRound_sub_abs (if goal = "Bulk" then (1.6 : ℚ) * w else 1.8 * w)
    have hb2 := pyRound_sub_abs (if goal = "Bulk" then (0.9 : ℚ) * w else 0.8 * w)
    have hb3 := pyRound_sub_abs (((cal : ℚ) - protein_fat_cal w goal) / 4)
    rw [abs_le] at hb1 hb2 hb3
    have hzq : |(((compute_macros w cal goal).protein_g * 4 +
        (compute_macros w cal goal).fat_g * 9 +
        (compute_macros w cal goal).carbs_g * 4 - cal : ℤ) : ℚ)| ≤ 17/2 := by
      rw [abs_le]
      push_cast
      rw [hP, hF, hC]
      constructor <;>
        linarith [hb1.1, hb1.2, hb2.1, hb2.2, hb3.1, hb3.2, hpfc]
    have h9 : ((|(compute_macros w cal goal).protein_g * 4 +
        (compute_macros w cal goal).fat_g * 9 +
        (compute_macros w cal goal).carbs_g * 4 - cal| : ℤ) : ℚ) < 9 := by
      rw [Int.cast_abs]
      calc |(((compute_macros w cal goal).protein_g * 4 +
            (compute_macros w cal goal).fat_g * 9 +
            (compute_macros w cal goal).carbs_g * 4 - cal : ℤ) : ℚ)| ≤ 17/2 := hzq
        _ < 9 := by norm_num
    have h9i : |(compute_macros w cal goal).protein_g * 4 +
        (compute_macros w cal goal).fat_g * 9 +
        (compute_macros w cal goal).carbs_g * 4 - cal| < 9 := by exact_mod_cast h9
    linarith

/-- Witness for C5: the spec's worked Maintain example (80 kg, 2200 kcal)
satisfies the no-clamp hypothesis and reconstructs within 8 kcal. -/
theorem macros_reconstruction_witness :
    protein_fat_cal 80 "Maintain" ≤ ((2200 : ℤ) : ℚ) ∧
    |(compute_macros 80 2200 "Maintain").protein_g * 4 +
        (compute_macros 80 2200 "Maintain").fat_g * 9 +
        (compute_macros 80 2200 "Maintain").carbs_g * 4 - 2200| ≤ 8 := by
  have h : protein_fat_cal 80 "Maintain" ≤ ((2200 : ℤ) : ℚ) := by
    norm_num +decide [protein_fat_cal]
  exact ⟨h, (macros_reconstruction 80 2200 "Maintain" h).2⟩

/-- C7: `macro_percentages` divides each macro's calories by the plan's
calories (times 100) when calories are positive, and returns `(0, 0, 0)`
without dividing whenever calories are non-positive, zero included. -/
theorem macro_percentages_spec (m : MacroPlan) :
    (0 < m.calories →
      macro_percentages m
        = ((m.protein_g * 4 : ℚ) / (m.calories : ℚ) * 100,
           (m.carbs_g * 4 : ℚ) / (m.calories : ℚ) * 100,
           (m.fat_g * 9 : ℚ) / (m.calories : ℚ) * 100)) ∧
    (m.calories ≤ 0 → macro_percentages m = (0, 0, 0)) := by
  constructor
  · intro h
    unfold macro_percentages
    rw [if_neg (by omega)]
  · intro h
    unfold macro_percentages
    rw [if_pos h]

/-- Witness for C7: the spec's worked plan (144 g protein, 64 g fat, 262 g
carbs, 2200 kcal) and the same plan with calories 0. -/
theorem macro_percentages_spec_witness :
    macro_percentages ⟨144, 64, 262, 2200⟩ = (288/11, 524/11, 288/11) ∧
    macro_percentages ⟨144, 64, 262, 0⟩ = (0, 0, 0) := by
  constructor
  · have h := (macro_percentages_spec ⟨144, 64, 262, 2200⟩).1 (by norm_num)
    rw [h]
    norm_num
  · exact (macro_percentages_spec ⟨144, 64, 262, 0⟩).2 (by norm_num)

/-- C8 counterexample: an unknown goal/pace combination does not signal any
error - `compute_calorie_target` returns normally, silently using the
Bulk/Aggressive table entry (2000 + 450 rounds to 2450). -/
theorem silent_goal_pace_defaulting_ctrex :
    compute_calorie_target 2000 "Keto" "Fast" = 2450 ∧
    compute_calorie_target 2000 "Bulk" "Aggressive" = 2450 := by
  constructor <;>
    norm_num +decide [compute_calorie_target, round_to, pyRound, Int.fract, max_def]

/-- C8 (amended): `compute_calorie_target` never signals an error; a goal
other than Maintain and Cut is treated as Bulk and a pace other than Slow and
Standard is treated as Aggressive (silent defaulting, no `InvalidGoalOrPace`). -/
theorem silent_goal_pace_defaulting (tdee : ℚ) (goal pace : String) :
    (goal ≠ "Maintain" → goal ≠ "Cut" →
      compute_calorie_target tdee goal pace = compute_calorie_target tdee "Bulk" pace) ∧
    (pace ≠ "Slow" → pace ≠ "Standard" →
      compute_calorie_target tdee goal pace = compute_calorie_target tdee goal "Aggressive") := by
  constructor
  · intro h1 h2
    simp +decide [compute_calorie_target, h1, h2]
  · intro h1 h2
    simp +decide [compute_calorie_target, h1, h2]

/-- Witness for C8: the unknown combination ("Keto", "Fast") lands on the Bulk
row and the Aggressive column. -/
theorem silent_goal_pace_defaulting_witness :
    compute_calorie_target 2000 "Keto" "Fast" = compute_calorie_target 2000 "Bulk" "Fast" ∧
    compute_calorie_target 2000 "Keto" "Fast" = compute_calorie_target 2000 "Keto" "Aggressive" :=
  ⟨(silent_goal_pace_defaulting 2000 "Keto" "Fast").1 (by decide) (by decide),
   (silent_goal_pace_defaulting 2000 "Keto" "Fast").2 (by decide) (by decide)⟩

theorem activity_isSome_iff (s : String) :
    (ACTIVITY_MULTIPLIERS s).isSome ↔ s ∈ ACTIVITY_LABELS := by
  unfold ACTIVITY_MULTIPLIERS ACTIVITY_LABELS
  split_ifs with h1 h2 h3 h4 h5 <;> simp_all

/-- C9: the TDEE step fails - with the error of a missing activity key - if
and only if the activity label is not one of the five known tiers; on each of
the five labels it succeeds (returns a value, never any error). -/
theorem tdee_error_iff (p : UserProfile) :
    (estimate_tdee p = .error CalcError.invalidActivityLevel
        ↔ p.activity ∉ ACTIVITY_LABELS) ∧
    (p.activity ∈ ACTIVITY_LABELS → ∃ v, estimate_tdee p = .ok v) := by
  have hiff := activity_isSome_iff p.activity
  constructor
  · constructor
    · intro h hm
      rw [← hiff] at hm
      unfold estimate_tdee at h
      cases hx : ACTIVITY_MULTIPLIERS p.activity with
      | none => rw [hx] at hm; simp at hm
      | some m => rw [hx] at h; exact Except.noConfusion h
    · intro hm
      rw [← hiff] at hm
      unfold estimate_tdee
      cases hx : ACTIVITY_MULTIPLIERS p.activity with
      | none => rfl
      | some m => rw [hx] at hm; simp at hm
  · intro hm
    rw [← hiff] at hm
    unfold estimate_tdee
    cases hx : ACTIVITY_MULTIPLIERS p.activity with
    | none => rw [hx] at hm; simp at hm
    | some m => exact ⟨_, rfl⟩

/-- A profile whose activity string is not one of the five tier labels. -/
def badProfile : UserProfile :=
  { sex := "Male", age := 19, height_cm := 180, weight_kg := 80,
    activity := "yoga", goal := "Maintain", pace := "Standard" }

/-- Witness for C9: the unknown label "yoga" fails with the missing-key error,
and a known label succeeds. -/
theorem tdee_error_iff_witness :
    estimate_tdee badProfile = .error CalcError.invalidActivityLevel ∧
    ∃ v, estimate_tdee { badProfile with activity := "Athlete (2x/day training)" } = .ok v :=
  ⟨(tdee_error_iff badProfile).1.mpr (by decide),
   (tdee_error_iff { badProfile with activity := "Athlete (2x/day training)" }).2 (by decide)⟩

end MacroMate
